import Mathlib

/-!
Shallow embedding of the SoulMail backend core: the `deliveredAt` schema
validator of `src/models/letter.js`, and the error classes, mongoose error
extraction helpers, global error handler and async wrapper of
`src/middleware/errorHandler.js`.

Modelling conventions: timestamps are integer milliseconds since the Unix
epoch; a JavaScript object used as a map is an ordered association list
(insertion order preserved, inserting an existing key overwrites in place);
`undefined` and `null` are `Option.none`; the JavaScript `error.code` field,
which may hold a number (11000 for duplicate keys) or a string (the custom
error codes), is a tagged value.
-/

namespace SoulMail

/-! ### Date model and the deliveredAt validator (src/models/letter.js) -/

def msPerDay : Int := 24 * 60 * 60 * 1000

/-- Truncation of a timestamp to UTC midnight. This is what
`Date.UTC(d.getUTCFullYear(), d.getUTCMonth(), d.getUTCDate())` computes for
the `Date` object `d` holding timestamp `t`: the UTC calendar components drop
the time of day, leaving the start of the UTC day containing `t`
(floor semantics, also for timestamps before the epoch). -/
def utcMidnight (t : Int) : Int := t - t.emod msPerDay

def sevenDaysInMilliseconds : Int := 7 * 24 * 60 * 60 * 1000

/-- `letterSchema.deliveredAt.validate.validator` (src/models/letter.js,
lines 183-217). `isNew` is `this.isNew`; `isRescheduling` is
`this.isModified('deliveredAt')`; `value` the candidate date, `now` the
current time (`new Date()`). -/
def deliveredAtValidator (isNew isRescheduling : Bool) (value now : Int) : Bool :=
  if isNew || isRescheduling then
    let todayAtMidnightUTC := utcMidnight now
    let minimumDeliveryDateMs := todayAtMidnightUTC + sevenDaysInMilliseconds
    let chosenDateAtMidnightUTC := utcMidnight value
    decide (chosenDateAtMidnightUTC ≥ minimumDeliveryDateMs)
  else
    true

/-- The configured validation message (src/models/letter.js, line 218). -/
def deliveredAtMessage : String := "Delivery date must be at least one week in the future."

/-- Outcome of mongoose running the validator: `none` when the value is
accepted, `some` the configured message when the validator returns false. -/
def validateDeliveredAt (isNew isRescheduling : Bool) (value now : Int) : Option String :=
  if deliveredAtValidator isNew isRescheduling value now then none
  else some deliveredAtMessage

/-- Claim C1: for every candidate delivery date and current time, when the
letter is new or deliveredAt is being modified, the validator accepts the
date iff its UTC midnight is at least the UTC midnight of now plus 7 days;
the boundary value is accepted, and any earlier date is rejected with the
message "Delivery date must be at least one week in the future." -/
theorem deliveredAt_seven_day_rule (isNew isRescheduling : Bool) (value now : Int)
    (h : isNew = true ∨ isRescheduling = true) :
    (deliveredAtValidator isNew isRescheduling value now = true ↔
      utcMidnight now + sevenDaysInMilliseconds ≤ utcMidnight value) ∧
    (validateDeliveredAt isNew isRescheduling value now = some deliveredAtMessage ↔
      utcMidnight value < utcMidnight now + sevenDaysInMilliseconds) ∧
    (utcMidnight value = utcMidnight now + sevenDaysInMilliseconds →
      deliveredAtValidator isNew isRescheduling value now = true) := by
  have hcond : (isNew || isRescheduling) = true := by
    rcases h with h | h <;> simp [h]
  constructor
  · simp [deliveredAtValidator, hcond, ge_iff_le]
  constructor
  · by_cases hle : utcMidnight now + sevenDaysInMilliseconds ≤ utcMidnight value
    · simp [validateDeliveredAt, deliveredAtValidator, hcond, ge_iff_le, hle, not_lt]
    · simp [validateDeliveredAt, deliveredAtValidator, hcond, ge_iff_le, hle, lt_of_not_le hle]
  · intro heq
    simp [deliveredAtValidator, hcond, ge_iff_le, heq]

/-- Witness for C1: with now at the epoch, the boundary date (exactly 7 days)
is accepted and an earlier date (6 days) is rejected with the message. -/
theorem deliveredAt_seven_day_rule_witness :
    deliveredAtValidator true false 604800000 0 = true ∧
    validateDeliveredAt true false 518400000 0 = some deliveredAtMessage :=
  ⟨(deliveredAt_seven_day_rule true false 604800000 0 (Or.inl rfl)).1.mpr (by decide),
   (deliveredAt_seven_day_rule true false 518400000 0 (Or.inl rfl)).2.1.mpr (by decide)⟩

/-- Claim C2: for updates to an existing letter that do not modify
deliveredAt, the validator returns true unconditionally, for every stored
value and every current time. -/
theorem deliveredAt_skipped_on_other_updates (value now : Int) :
    deliveredAtValidator false false value now = true ∧
    validateDeliveredAt false false value now = none := by
  constructor
  · simp [deliveredAtValidator]
  · simp [validateDeliveredAt, deliveredAtValidator]

/-! ### Error model (src/middleware/errorHandler.js) -/

/-- A JavaScript `error.code` value: a number (11000 for MongoDB duplicate
keys) or a string (the custom error classes set string codes). -/
inductive CodeVal where
  | cnum (n : Int)
  | cstr (s : String)
deriving DecidableEq

/-- One entry of a mongoose `error.errors` collection: an error object with
a dotted `path` and a `message`, listed in the object's iteration order. -/
structure FieldError where
  path : String
  message : String
deriving DecidableEq

/-- The shape of a failure value reaching the error handler. Absent fields
(`undefined`/`null`) are `none`. -/
structure JSError where
  name : String
  message : String
  stack : String
  errors : Option (List FieldError)
  code : Option CodeVal
  keyValue : Option (List (String × String))
  isOperational : Bool
  statusCode : Nat
  fields : Option (List (String × String))
deriving DecidableEq

/-- Insertion into a JavaScript object modelled as an ordered association
list: an existing key is overwritten in place, a new key is appended. -/
def objInsert (obj : List (String × String)) (k v : String) : List (String × String) :=
  if obj.any (fun p => p.1 = k) then
    obj.map (fun p => if p.1 = k then (k, v) else p)
  else obj ++ [(k, v)]

/-- The characters after the last dot: for a dotted path,
`path.split('.').pop()` is exactly the segment after the final dot
(an empty segment when the path ends in a dot). -/
def lastSegmentAux : List Char → List Char → List Char
  | [], cur => cur
  | c :: rest, cur =>
      if c = '.' then lastSegmentAux rest [] else lastSegmentAux rest (cur ++ [c])

/-- `fullPath.includes('.') ? fullPath.split('.').pop() : fullPath`
(src/middleware/errorHandler.js, lines 117-120). -/
def leafFieldName (fullPath : String) : String :=
  if fullPath.toList.any (fun c => c = '.') then
    String.mk (lastSegmentAux fullPath.toList [])
  else fullPath

/-- `extractMongooseErrors` (src/middleware/errorHandler.js, lines 111-127):
one message per entry of `error.errors`, keyed by the leaf segment of the
entry's path. -/
def extractMongooseErrors (mongooseError : JSError) : List (String × String) :=
  match mongooseError.errors with
  | none => []
  | some entries =>
      entries.foldl
        (fun fieldErrors fe => objInsert fieldErrors (leafFieldName fe.path) fe.message) []

/-- `getFirstErrorMessage` (src/middleware/errorHandler.js, lines 133-136). -/
def getFirstErrorMessage (fieldErrors : List (String × String)) : String :=
  match fieldErrors with
  | [] => "Validation failed"
  | (_, msg) :: _ => msg

/-- The `error` object of a response body. -/
structure ErrorBody where
  code : CodeVal
  message : String
  fields : Option (List (String × String))
  stack : Option String
deriving DecidableEq

/-- A produced response: HTTP status plus JSON body
`{ success, error: { code, message, fields?, stack? } }`. -/
structure ErrorResponse where
  status : Nat
  success : Bool
  error : ErrorBody
deriving DecidableEq

/-- `error.code || 'ERROR'`: JavaScript truthiness on the representable
code values (`undefined`, the number 0 and the empty string are falsy). -/
def codeOrERROR : Option CodeVal → CodeVal
  | none => .cstr "ERROR"
  | some (.cnum n) => if n = 0 then .cstr "ERROR" else .cnum n
  | some (.cstr s) => if s = "" then .cstr "ERROR" else .cstr s

/-- `errorHandler` (src/middleware/errorHandler.js, lines 149-222), as a
function of the failure value and `process.env.NODE_ENV`. The result is
`none` exactly when the handler itself throws: in the duplicate-key branch,
`Object.keys(error.keyValue)` raises a TypeError when `keyValue` is absent. -/
def errorHandler (error : JSError) (nodeEnv : String) : Option ErrorResponse :=
  let isDevelopment := nodeEnv = "development"
  if error.name = "ValidationError" ∧ error.errors.isSome then
    let fieldErrors := extractMongooseErrors error
    let summaryMessage := getFirstErrorMessage fieldErrors
    some { status := 400, success := false,
           error := { code := .cstr "VALIDATION_ERROR", message := summaryMessage,
                      fields := some fieldErrors, stack := none } }
  else if error.name = "CastError" then
    some { status := 400, success := false,
           error := { code := .cstr "INVALID_ID", message := "Invalid ID format",
                      fields := none, stack := none } }
  else if error.code = some (.cnum 11000) then
    match error.keyValue with
    | none => none
    | some keyValue =>
        let duplicateField := ((keyValue.head?).map Prod.fst).getD "undefined"
        some { status := 400, success := false,
               error := { code := .cstr "DUPLICATE_ERROR",
                          message := "A record with this " ++ duplicateField ++ " already exists",
                          fields := some [(duplicateField,
                            "This " ++ duplicateField ++ " is already in use")],
                          stack := none } }
  else if error.isOperational then
    some { status := error.statusCode, success := false,
           error := { code := codeOrERROR error.code, message := error.message,
                      fields := error.fields, stack := none } }
  else
    some { status := 500, success := false,
           error := { code := .cstr "INTERNAL_ERROR",
                      message := if isDevelopment then error.message
                                 else "An unexpected error occurred",
                      fields := none,
                      stack := if isDevelopment then some error.stack else none } }

/-! ### The custom error classes (src/middleware/errorHandler.js, lines 19-101)

`AppError` sets `isOperational = true` and a status code; its subclasses fix
a string code and status. None of them sets `this.name`, so instances keep
the inherited name "Error" and never match the mongoose-shaped branches. -/

def mkAppError (message stack : String) (statusCode : Nat) : JSError :=
  { name := "Error", message := message, stack := stack, errors := none,
    code := none, keyValue := none, isOperational := true,
    statusCode := statusCode, fields := none }

def mkValidationError (message stack : String)
    (fieldErrors : Option (List (String × String))) : JSError :=
  { mkAppError message stack 400 with
      code := some (.cstr "VALIDATION_ERROR"), fields := fieldErrors }

def mkNotFoundError (message stack : String) : JSError :=
  { mkAppError message stack 404 with code := some (.cstr "NOT_FOUND") }

def mkForbiddenError (message stack : String) : JSError :=
  { mkAppError message stack 403 with code := some (.cstr "FORBIDDEN") }

def mkUnauthorizedError (message stack : String) : JSError :=
  { mkAppError message stack 401 with code := some (.cstr "UNAUTHORIZED") }

def mkAIServiceError (message stack : String) : JSError :=
  { mkAppError message stack 503 with code := some (.cstr "AI_SERVICE_ERROR") }

/-! ### Branch shapes and branch responses of the handler

The five classification shapes, in the order the handler tests them, and
the response each branch builds. These restate the branches of
`errorHandler` separately so that the first-match ordering can be stated. -/

def isMongooseValidation (e : JSError) : Prop :=
  e.name = "ValidationError" ∧ e.errors.isSome

def isCastShape (e : JSError) : Prop := e.name = "CastError"

def isDuplicateKeyShape (e : JSError) : Prop := e.code = some (.cnum 11000)

def isOperationalShape (e : JSError) : Prop := e.isOperational = true

def isUnclassified (e : JSError) : Prop :=
  ¬ isMongooseValidation e ∧ ¬ isCastShape e ∧ ¬ isDuplicateKeyShape e ∧
    ¬ isOperationalShape e

instance (e : JSError) : Decidable (isMongooseValidation e) :=
  inferInstanceAs (Decidable (_ ∧ _))

instance (e : JSError) : Decidable (isCastShape e) :=
  inferInstanceAs (Decidable (_ = _))

instance (e : JSError) : Decidable (isDuplicateKeyShape e) :=
  inferInstanceAs (Decidable (_ = _))

instance (e : JSError) : Decidable (isOperationalShape e) :=
  inferInstanceAs (Decidable (_ = _))

instance (e : JSError) : Decidable (isUnclassified e) :=
  inferInstanceAs (Decidable (_ ∧ _))

def validationResponse (e : JSError) : ErrorResponse :=
  { status := 400, success := false,
    error := { code := .cstr "VALIDATION_ERROR",
               message := getFirstErrorMessage (extractMongooseErrors e),
               fields := some (extractMongooseErrors e), stack := none } }

def castResponse : ErrorResponse :=
  { status := 400, success := false,
    error := { code := .cstr "INVALID_ID", message := "Invalid ID format",
               fields := none, stack := none } }

def duplicateResponse (keyValue : List (String × String)) : ErrorResponse :=
  let duplicateField := ((keyValue.head?).map Prod.fst).getD "undefined"
  { status := 400, success := false,
    error := { code := .cstr "DUPLICATE_ERROR",
               message := "A record with this " ++ duplicateField ++ " already exists",
               fields := some [(duplicateField,
                 "This " ++ duplicateField ++ " is already in use")],
               stack := none } }

def operationalResponse (e : JSError) : ErrorResponse :=
  { status := e.statusCode, success := false,
    error := { code := codeOrERROR e.code, message := e.message,
               fields := e.fields, stack := none } }

def internalResponse (e : JSError) (nodeEnv : String) : ErrorResponse :=
  { status := 500, success := false,
    error := { code := .cstr "INTERNAL_ERROR",
               message := if nodeEnv = "development" then e.message
                          else "An unexpected error occurred",
               fields := none,
               stack := if nodeEnv = "development" then some e.stack else none } }

/-- The eight (code, status) pairs of the spec's taxonomy table. -/
def errorCodeStatusPairs : List (String × Nat) :=
  [("VALIDATION_ERROR", 400), ("INVALID_ID", 400), ("DUPLICATE_ERROR", 400),
   ("NOT_FOUND", 404), ("UNAUTHORIZED", 401), ("FORBIDDEN", 403),
   ("AI_SERVICE_ERROR", 503), ("INTERNAL_ERROR", 500)]

/-- The operational failures built by the five subclass constructors of the
module (each fixes its code and status); a bare `AppError` is not included
since it carries no code. -/
def InTaxonomy (e : JSError) : Prop :=
  (∃ m s f, e = mkValidationError m s f) ∨ (∃ m s, e = mkNotFoundError m s) ∨
  (∃ m s, e = mkForbiddenError m s) ∨ (∃ m s, e = mkUnauthorizedError m s) ∨
  (∃ m s, e = mkAIServiceError m s)

/-! ### The async wrapper (src/middleware/errorHandler.js, lines 237-241)

`asyncHandler` wraps a route handler as
`(request, response, next) => { Promise.resolve(routeHandler(...)).catch(next) }`.
A handler invocation either throws synchronously before returning, or
returns a value; `Promise.resolve` of the returned value adopts it as a
deferred result that later resolves or rejects. The wrapper's observable
behaviour is which errors it passes to `next` and which exceptions
propagate out of the wrapping arrow function uncaught. -/

inductive PromiseOutcome where
  | resolved
  | rejected (e : JSError)
deriving DecidableEq

inductive HandlerBehavior where
  | syncThrow (e : JSError)
  | returns (p : PromiseOutcome)
deriving DecidableEq

structure WrapperResult where
  forwardedToNext : List JSError
  escapedException : Option JSError
deriving DecidableEq

/-- Semantics of the wrapped handler: a synchronous throw happens while
evaluating `routeHandler(request, response, next)`, before `Promise.resolve`
runs, so it propagates out of the arrow function; a rejection of the
returned deferred result is caught by `.catch(next)` and forwarded once;
a resolution forwards nothing. -/
def asyncHandler : HandlerBehavior → WrapperResult
  | .syncThrow e => { forwardedToNext := [], escapedException := some e }
  | .returns (.rejected e) => { forwardedToNext := [e], escapedException := none }
  | .returns .resolved => { forwardedToNext := [], escapedException := none }

/-! ### Branch lemmas: the handler as a first-match over the five shapes -/

lemma errorHandler_validation_branch (e : JSError) (env : String)
    (h1 : isMongooseValidation e) :
    errorHandler e env = some (validationResponse e) := by
  have h1' : e.name = "ValidationError" ∧ e.errors.isSome = true := h1
  simp only [errorHandler, validationResponse]
  rw [if_pos h1']

lemma errorHandler_cast_branch (e : JSError) (env : String)
    (h1 : ¬ isMongooseValidation e) (h2 : isCastShape e) :
    errorHandler e env = some castResponse := by
  have h1' : ¬ (e.name = "ValidationError" ∧ e.errors.isSome = true) := h1
  have h2' : e.name = "CastError" := h2
  simp only [errorHandler, castResponse]
  rw [if_neg h1', if_pos h2']

lemma errorHandler_duplicate_branch (e : JSError) (env : String)
    (h1 : ¬ isMongooseValidation e) (h2 : ¬ isCastShape e)
    (h3 : isDuplicateKeyShape e) :
    errorHandler e env = e.keyValue.map duplicateResponse := by
  have h1' : ¬ (e.name = "ValidationError" ∧ e.errors.isSome = true) := h1
  have h2' : ¬ e.name = "CastError" := h2
  have h3' : e.code = some (.cnum 11000) := h3
  simp only [errorHandler]
  rw [if_neg h1', if_neg h2', if_pos h3']
  cases e.keyValue <;> simp [duplicateResponse]

lemma errorHandler_operational_branch (e : JSError) (env : String)
    (h1 : ¬ isMongooseValidation e) (h2 : ¬ isCastShape e)
    (h3 : ¬ isDuplicateKeyShape e) (h4 : isOperationalShape e) :
    errorHandler e env = some (operationalResponse e) := by
  have h1' : ¬ (e.name = "ValidationError" ∧ e.errors.isSome = true) := h1
  have h2' : ¬ e.name = "CastError" := h2
  have h3' : ¬ e.code = some (.cnum 11000) := h3
  have h4' : e.isOperational = true := h4
  simp only [errorHandler, operationalResponse]
  rw [if_neg h1', if_neg h2', if_neg h3', if_pos h4']

lemma errorHandler_internal_branch (e : JSError) (env : String)
    (h : isUnclassified e) :
    errorHandler e env = some (internalResponse e env) := by
  obtain ⟨h1, h2, h3, h4⟩ := h
  have h1' : ¬ (e.name = "ValidationError" ∧ e.errors.isSome = true) := h1
  have h2' : ¬ e.name = "CastError" := h2
  have h3' : ¬ e.code = some (.cnum 11000) := h3
  have h4' : ¬ e.isOperational = true := h4
  simp only [errorHandler, internalResponse]
  rw [if_neg h1', if_neg h2', if_neg h3', if_neg h4']

/-- Claim C7: the handler classifies by testing shapes in a fixed
first-match order — mongoose validation, then cast, then duplicate key
(numeric code 11000), then operational (passing through code with default
ERROR, message, statusCode and fields when present), then unclassified
internal — so a failure matching an earlier shape is never handled by a
later branch, whatever later tests it also satisfies. -/
theorem errorHandler_first_match_order (e : JSError) (env : String) :
    (isMongooseValidation e → errorHandler e env = some (validationResponse e)) ∧
    (¬ isMongooseValidation e → isCastShape e →
      errorHandler e env = some castResponse) ∧
    (¬ isMongooseValidation e → ¬ isCastShape e → isDuplicateKeyShape e →
      errorHandler e env = e.keyValue.map duplicateResponse) ∧
    (¬ isMongooseValidation e → ¬ isCastShape e → ¬ isDuplicateKeyShape e →
      isOperationalShape e → errorHandler e env = some (operationalResponse e)) ∧
    (isUnclassified e → errorHandler e env = some (internalResponse e env)) :=
  ⟨fun h1 => errorHandler_validation_branch e env h1,
   fun h1 h2 => errorHandler_cast_branch e env h1 h2,
   fun h1 h2 h3 => errorHandler_duplicate_branch e env h1 h2 h3,
   fun h1 h2 h3 h4 => errorHandler_operational_branch e env h1 h2 h3 h4,
   fun h => errorHandler_internal_branch e env h⟩

/-- An error that satisfies both the mongoose-validation shape and the
operational shape (and carries the duplicate-key code as well): first match
must win. -/
def ambiguousFailure : JSError :=
  { name := "ValidationError", message := "ambiguous",
    stack := "at save",
    errors := some [{ path := "content", message := "Letter content is required" }],
    code := some (.cnum 11000), keyValue := some [("email", "x")],
    isOperational := true, statusCode := 503, fields := none }

/-- Witness for C7: the ambiguous failure above is handled by the first
(validation) branch, not by the duplicate-key or operational branches it
also matches. -/
theorem errorHandler_first_match_order_witness :
    errorHandler ambiguousFailure "production" =
      some (validationResponse ambiguousFailure) :=
  (errorHandler_first_match_order ambiguousFailure "production").1 (by decide)

/-- Claim C6: for every unclassified failure, the production response body
is the fixed generic message with no stack — independent of the failure's
message and stack, so two unclassified failures differing only there
produce identical production bodies — while the development response
carries the real message and stack; status 500 in both modes. -/
theorem internal_error_information_hiding (e₁ e₂ : JSError)
    (h₁ : isUnclassified e₁)
    (hsame : e₁.name = e₂.name ∧ e₁.errors = e₂.errors ∧ e₁.code = e₂.code ∧
      e₁.keyValue = e₂.keyValue ∧ e₁.isOperational = e₂.isOperational ∧
      e₁.statusCode = e₂.statusCode ∧ e₁.fields = e₂.fields) :
    errorHandler e₁ "production" = errorHandler e₂ "production" ∧
    errorHandler e₁ "production" = some
      { status := 500, success := false,
        error := { code := .cstr "INTERNAL_ERROR",
                   message := "An unexpected error occurred",
                   fields := none, stack := none } } ∧
    errorHandler e₁ "development" = some
      { status := 500, success := false,
        error := { code := .cstr "INTERNAL_ERROR", message := e₁.message,
                   fields := none, stack := some e₁.stack } } := by
  obtain ⟨hn, he, hc, hk, ho, hs, hf⟩ := hsame
  have h₂ : isUnclassified e₂ := by
    obtain ⟨u1, u2, u3, u4⟩ := h₁
    refine ⟨?_, ?_, ?_, ?_⟩
    · simpa [isMongooseValidation, hn, he] using u1
    · simpa [isCastShape, hn] using u2
    · simpa [isDuplicateKeyShape, hc] using u3
    · simpa [isOperationalShape, ho] using u4
  refine ⟨?_, ?_, ?_⟩
  · rw [errorHandler_internal_branch e₁ "production" h₁,
        errorHandler_internal_branch e₂ "production" h₂]
    simp [internalResponse]
  · rw [errorHandler_internal_branch e₁ "production" h₁]
    simp [internalResponse]
  · rw [errorHandler_internal_branch e₁ "development" h₁]
    simp [internalResponse]

/-- An unclassified failure with message "boom", as in the spec's example. -/
def boomFailure : JSError :=
  { name := "Error", message := "boom", stack := "at handler",
    errors := none, code := none, keyValue := none, isOperational := false,
    statusCode := 500, fields := none }

/-- The same unclassified failure with a different message and stack. -/
def otherBoomFailure : JSError :=
  { boomFailure with message := "entirely different", stack := "other stack" }

/-- Witness for C6: boom in production is hidden behind the generic body,
identically to a failure differing only in message and stack. -/
theorem internal_error_information_hiding_witness :
    errorHandler boomFailure "production" = errorHandler otherBoomFailure "production" ∧
    errorHandler boomFailure "development" = some
      { status := 500, success := false,
        error := { code := .cstr "INTERNAL_ERROR", message := "boom",
                   fields := none, stack := some "at handler" } } :=
  ⟨(internal_error_information_hiding boomFailure otherBoomFailure (by decide)
      ⟨rfl, rfl, rfl, rfl, rfl, rfl, rfl⟩).1,
   (internal_error_information_hiding boomFailure otherBoomFailure (by decide)
      ⟨rfl, rfl, rfl, rfl, rfl, rfl, rfl⟩).2.2⟩

/-- Folding `objInsert` over entries whose leaf names are pairwise distinct
and absent from the accumulator appends one pair per entry, in order. -/
lemma foldl_objInsert_append (entries : List FieldError) (acc : List (String × String))
    (hdisj : ∀ fe ∈ entries, ∀ p ∈ acc, p.1 ≠ leafFieldName fe.path)
    (hnodup : (entries.map (fun fe => leafFieldName fe.path)).Nodup) :
    entries.foldl (fun fieldErrors fe =>
        objInsert fieldErrors (leafFieldName fe.path) fe.message) acc =
      acc ++ entries.map (fun fe => (leafFieldName fe.path, fe.message)) := by
  induction entries generalizing acc with
  | nil => simp
  | cons fe rest ih =>
    simp only [List.foldl_cons]
    have hnot : ¬ (acc.any (fun p => p.1 = leafFieldName fe.path) = true) := by
      simp only [List.any_eq_true, decide_eq_true_eq, not_exists]
      intro p hp
      exact hdisj fe (List.mem_cons_self _ _) p hp.1 hp.2
    rw [show objInsert acc (leafFieldName fe.path) fe.message =
          acc ++ [(leafFieldName fe.path, fe.message)] from by
        rw [objInsert, if_neg hnot]]
    have hhead : leafFieldName fe.path ∉ rest.map (fun g => leafFieldName g.path) :=
      (List.nodup_cons.mp hnodup).1
    rw [ih (acc ++ [(leafFieldName fe.path, fe.message)])]
    · simp
    · intro g hg p hp
      rcases List.mem_append.mp hp with hp | hp
      · exact hdisj g (List.mem_cons_of_mem _ hg) p hp
      · have hpeq : p = (leafFieldName fe.path, fe.message) := by simpa using hp
        subst hpeq
        intro hc
        have hc' : leafFieldName fe.path = leafFieldName g.path := hc
        exact hhead (by
          rw [hc']
          exact List.mem_map_of_mem (fun g => leafFieldName g.path) hg)
    · exact (List.nodup_cons.mp hnodup).2

/-- Claim C3 (amended): for a storage validation failure whose offending
entries have pairwise distinct leaf segments, the response carries exactly
one field entry per offending entry, keyed by the leaf segment, with the
summary message equal to the first entry's message, status 400 and code
VALIDATION_ERROR. (As stated the claim fails: entries whose dotted paths
share a leaf segment are merged into one key, the later message
overwriting the earlier.) -/
theorem validation_failure_fields_and_message (e : JSError) (entries : List FieldError)
    (env : String) (hname : e.name = "ValidationError") (herrs : e.errors = some entries)
    (hnodup : (entries.map (fun fe => leafFieldName fe.path)).Nodup) :
    errorHandler e env = some
      { status := 400, success := false,
        error := { code := .cstr "VALIDATION_ERROR",
                   message := ((entries.head?).map FieldError.message).getD "Validation failed",
                   fields := some (entries.map (fun fe => (leafFieldName fe.path, fe.message))),
                   stack := none } } ∧
    (extractMongooseErrors e).length = entries.length := by
  have hext : extractMongooseErrors e =
      entries.map (fun fe => (leafFieldName fe.path, fe.message)) := by
    simp only [extractMongooseErrors, herrs]
    simpa using foldl_objInsert_append entries [] (by simp) hnodup
  have hmv : isMongooseValidation e := ⟨hname, by rw [herrs]; rfl⟩
  rw [errorHandler_validation_branch e env hmv]
  constructor
  · simp only [validationResponse, hext]
    cases entries with
    | nil => rfl
    | cons fe rest => rfl
  · rw [hext]
    simp

/-- A storage validation failure with two offending entries whose dotted
paths share the leaf segment "reflection". -/
def collidingValidationFailure : JSError :=
  { name := "ValidationError", message := "Letter validation failed",
    stack := "at save",
    errors := some
      [{ path := "reflections.0.reflection", message := "first message" },
       { path := "reflections.1.reflection", message := "second message" }],
    code := none, keyValue := none, isOperational := false, statusCode := 500,
    fields := none }

/-- Counterexample to C3 as stated: this validation failure carries two
offending field entries, yet the produced fields object has a single entry
and the summary message is the second entry's message, not the first. -/
theorem validation_failure_collision_counterexample :
    (collidingValidationFailure.errors.map List.length = some 2) ∧
    errorHandler collidingValidationFailure "production" = some
      { status := 400, success := false,
        error := { code := .cstr "VALIDATION_ERROR", message := "second message",
                   fields := some [("reflection", "second message")], stack := none } } ∧
    [("reflection", "second message")].length ≠ 2 ∧
    "second message" ≠ "first message" := by
  refine ⟨rfl, by decide, by decide, by decide⟩

/-- A storage validation failure whose two offending entries have distinct
leaf segments. -/
def distinctValidationFailure : JSError :=
  { name := "ValidationError", message := "Letter validation failed",
    stack := "at save",
    errors := some
      [{ path := "reflections.0.reflection",
         message := "Reflection must be at least 50 characters long" },
       { path := "content", message := "Letter content is required" }],
    code := none, keyValue := none, isOperational := false, statusCode := 500,
    fields := none }

/-- Witness for C3 (amended): two entries with distinct leaves give exactly
two field entries and the first entry's message as the summary. -/
theorem validation_failure_fields_and_message_witness :
    errorHandler distinctValidationFailure "production" = some
      { status := 400, success := false,
        error := { code := .cstr "VALIDATION_ERROR",
                   message := "Reflection must be at least 50 characters long",
                   fields := some
                     [("reflection", "Reflection must be at least 50 characters long"),
                      ("content", "Letter content is required")],
                   stack := none } } := by
  have h := (validation_failure_fields_and_message distinctValidationFailure
      [{ path := "reflections.0.reflection",
         message := "Reflection must be at least 50 characters long" },
       { path := "content", message := "Letter content is required" }]
      "production" rfl rfl (by decide)).1
  rw [h]
  decide

/-- A bare operational failure with no code and a status outside the
taxonomy table, as the exported `AppError` constructor allows. -/
def teapotFailure : JSError := mkAppError "I am a teapot" "at route" 418

/-- Counterexample to C4 as stated: the operational branch passes through
the failure's own status and defaults the missing code to ERROR, so a bare
AppError with status 418 produces the pair (ERROR, 418), which is not among
the eight taxonomy pairs. -/
theorem taxonomy_closed_counterexample :
    errorHandler teapotFailure "production" = some
      { status := 418, success := false,
        error := { code := .cstr "ERROR", message := "I am a teapot",
                   fields := none, stack := none } } ∧
    (∀ p ∈ errorCodeStatusPairs, p ≠ ("ERROR", 418)) :=
  ⟨by decide, by decide⟩

/-- Claim C4 (amended): for every failure whose operational shape (if any)
comes from one of the module's five subclass constructors (which fix their
codes and statuses), whenever the handler produces a response its
(code, status) pair is among the eight taxonomy pairs, with any
unrecognized failure mapping to INTERNAL_ERROR/500; and the only inputs on
which the handler produces no response at all (it raises) are code-11000
failures carrying no keyValue. A hand-built operational failure (for
example a bare AppError) can instead pass through any (code, status)
pair. -/
theorem taxonomy_closed_for_module_failures (e : JSError) (env : String)
    (hop : isOperationalShape e → InTaxonomy e) :
    (∀ r, errorHandler e env = some r →
      ∃ s, r.error.code = CodeVal.cstr s ∧ (s, r.status) ∈ errorCodeStatusPairs) ∧
    (errorHandler e env = none →
      e.code = some (.cnum 11000) ∧ e.keyValue = none) := by
  by_cases h1 : isMongooseValidation e
  · rw [errorHandler_validation_branch e env h1]
    refine ⟨fun r h => ?_, by simp⟩
    rw [Option.some.injEq] at h
    subst h
    exact ⟨"VALIDATION_ERROR", rfl,
      show ("VALIDATION_ERROR", (400 : Nat)) ∈ errorCodeStatusPairs by decide⟩
  by_cases h2 : isCastShape e
  · rw [errorHandler_cast_branch e env h1 h2]
    refine ⟨fun r h => ?_, by simp⟩
    rw [Option.some.injEq] at h
    subst h
    exact ⟨"INVALID_ID", rfl, by decide⟩
  by_cases h3 : isDuplicateKeyShape e
  · rw [errorHandler_duplicate_branch e env h1 h2 h3]
    cases hk : e.keyValue with
    | none =>
        refine ⟨fun r h => ?_, fun _ => ⟨h3, rfl⟩⟩
        simp at h
    | some kvs =>
        refine ⟨fun r h => ?_, by simp⟩
        simp only [Option.map_some', Option.some.injEq] at h
        subst h
        exact ⟨"DUPLICATE_ERROR", rfl,
          show ("DUPLICATE_ERROR", (400 : Nat)) ∈ errorCodeStatusPairs by decide⟩
  by_cases h4 : isOperationalShape e
  · rw [errorHandler_operational_branch e env h1 h2 h3 h4]
    refine ⟨fun r h => ?_, by simp⟩
    rw [Option.some.injEq] at h
    subst h
    rcases hop h4 with ⟨m, s, f, rfl⟩ | ⟨m, s, rfl⟩ | ⟨m, s, rfl⟩ | ⟨m, s, rfl⟩ | ⟨m, s, rfl⟩
    · exact ⟨"VALIDATION_ERROR", rfl,
        show ("VALIDATION_ERROR", (400 : Nat)) ∈ errorCodeStatusPairs by decide⟩
    · exact ⟨"NOT_FOUND", rfl,
        show ("NOT_FOUND", (404 : Nat)) ∈ errorCodeStatusPairs by decide⟩
    · exact ⟨"FORBIDDEN", rfl,
        show ("FORBIDDEN", (403 : Nat)) ∈ errorCodeStatusPairs by decide⟩
    · exact ⟨"UNAUTHORIZED", rfl,
        show ("UNAUTHORIZED", (401 : Nat)) ∈ errorCodeStatusPairs by decide⟩
    · exact ⟨"AI_SERVICE_ERROR", rfl,
        show ("AI_SERVICE_ERROR", (503 : Nat)) ∈ errorCodeStatusPairs by decide⟩
  · rw [errorHandler_internal_branch e env ⟨h1, h2, h3, h4⟩]
    refine ⟨fun r h => ?_, by simp⟩
    rw [Option.some.injEq] at h
    subst h
    exact ⟨"INTERNAL_ERROR", rfl,
      show ("INTERNAL_ERROR", (500 : Nat)) ∈ errorCodeStatusPairs by decide⟩

/-- Witness for C4 (amended): an UnauthorizedError resolves to the pair
(UNAUTHORIZED, 401) from the taxonomy table. -/
theorem taxonomy_closed_for_module_failures_witness :
    ∃ s, (operationalResponse (mkUnauthorizedError "Authentication required" "at auth")).error.code
        = CodeVal.cstr s ∧
      (s, (operationalResponse (mkUnauthorizedError "Authentication required" "at auth")).status)
        ∈ errorCodeStatusPairs :=
  (taxonomy_closed_for_module_failures
    (mkUnauthorizedError "Authentication required" "at auth") "production"
    (fun _ => Or.inr (Or.inr (Or.inr (Or.inl ⟨"Authentication required", "at auth", rfl⟩))))).1
    (operationalResponse (mkUnauthorizedError "Authentication required" "at auth"))
    (by decide)

/-- Claim C8: a failure reaching the duplicate-key branch (numeric code
11000, not matching the two mongoose-shaped branches) with first
conflicting key f produces status 400, code DUPLICATE_ERROR, the message
"A record with this f already exists" and one field entry
"This f is already in use" under f. -/
theorem duplicate_key_response (e : JSError) (env f v : String)
    (rest : List (String × String))
    (h1 : ¬ isMongooseValidation e) (h2 : ¬ isCastShape e)
    (h3 : e.code = some (.cnum 11000)) (h4 : e.keyValue = some ((f, v) :: rest)) :
    errorHandler e env = some
      { status := 400, success := false,
        error := { code := .cstr "DUPLICATE_ERROR",
                   message := "A record with this " ++ f ++ " already exists",
                   fields := some [(f, "This " ++ f ++ " is already in use")],
                   stack := none } } := by
  rw [errorHandler_duplicate_branch e env h1 h2 h3, h4]
  rfl

/-- A MongoDB duplicate-key failure on the field email. -/
def emailDuplicateFailure : JSError :=
  { name := "MongoServerError", message := "E11000 duplicate key error",
    stack := "at insert", errors := none, code := some (.cnum 11000),
    keyValue := some [("email", "user@example.com")], isOperational := false,
    statusCode := 500, fields := none }

/-- Witness for C8: the duplicate-key failure on email produces exactly the
body given in the spec. -/
theorem duplicate_key_response_witness :
    errorHandler emailDuplicateFailure "production" = some
      { status := 400, success := false,
        error := { code := .cstr "DUPLICATE_ERROR",
                   message := "A record with this email already exists",
                   fields := some [("email", "This email is already in use")],
                   stack := none } } := by
  rw [duplicate_key_response emailDuplicateFailure "production" "email" "user@example.com" []
      (by decide) (by decide) rfl rfl]
  decide

/-- Claim C9: every response the handler emits has success literally false;
a fields entry appears only when the classified failure carries field-level
detail (a mongoose errors collection, a duplicate-key conflict, or an
operational fields object); and a stack entry appears only in development
mode and only on the unclassified INTERNAL_ERROR branch. -/
theorem response_shape_invariants (e : JSError) (env : String) (r : ErrorResponse)
    (h : errorHandler e env = some r) :
    r.success = false ∧
    (r.error.fields.isSome = true →
      isMongooseValidation e ∨ isDuplicateKeyShape e ∨ e.fields.isSome = true) ∧
    (r.error.stack.isSome = true →
      env = "development" ∧ isUnclassified e ∧
        r.error.code = CodeVal.cstr "INTERNAL_ERROR" ∧ r.status = 500) := by
  by_cases h1 : isMongooseValidation e
  · rw [errorHandler_validation_branch e env h1, Option.some.injEq] at h
    subst h
    refine ⟨rfl, fun _ => Or.inl h1, fun hs => ?_⟩
    simp [validationResponse] at hs
  by_cases h2 : isCastShape e
  · rw [errorHandler_cast_branch e env h1 h2, Option.some.injEq] at h
    subst h
    refine ⟨rfl, fun hf => ?_, fun hs => ?_⟩
    · simp [castResponse] at hf
    · simp [castResponse] at hs
  by_cases h3 : isDuplicateKeyShape e
  · rw [errorHandler_duplicate_branch e env h1 h2 h3] at h
    cases hk : e.keyValue with
    | none => rw [hk] at h; simp at h
    | some kvs =>
        rw [hk] at h
        simp only [Option.map_some', Option.some.injEq] at h
        subst h
        refine ⟨rfl, fun _ => Or.inr (Or.inl h3), fun hs => ?_⟩
        simp [duplicateResponse] at hs
  by_cases h4 : isOperationalShape e
  · rw [errorHandler_operational_branch e env h1 h2 h3 h4, Option.some.injEq] at h
    subst h
    refine ⟨rfl, fun hf => Or.inr (Or.inr hf), fun hs => ?_⟩
    simp [operationalResponse] at hs
  · rw [errorHandler_internal_branch e env ⟨h1, h2, h3, h4⟩, Option.some.injEq] at h
    subst h
    refine ⟨rfl, fun hf => ?_, fun hs => ?_⟩
    · simp [internalResponse] at hf
    · by_cases hdev : env = "development"
      · exact ⟨hdev, ⟨h1, h2, h3, h4⟩, rfl, rfl⟩
      · exfalso
        simp [internalResponse, hdev] at hs

/-- Witness for C9: the unclassified boom failure in development mode. -/
theorem response_shape_invariants_witness :
    (internalResponse boomFailure "development").success = false ∧
    ((internalResponse boomFailure "development").error.fields.isSome = true →
      isMongooseValidation boomFailure ∨ isDuplicateKeyShape boomFailure ∨
        boomFailure.fields.isSome = true) ∧
    ((internalResponse boomFailure "development").error.stack.isSome = true →
      "development" = "development" ∧ isUnclassified boomFailure ∧
        (internalResponse boomFailure "development").error.code = CodeVal.cstr "INTERNAL_ERROR" ∧
        (internalResponse boomFailure "development").status = 500) :=
  response_shape_invariants boomFailure "development"
    (internalResponse boomFailure "development") (by decide)

/-- Claim C10: on the duplicate-key path the handler is partial — it raises
(produces no response) exactly when the code-11000 failure carries no
keyValue object, and produces the duplicate response whenever a keyValue
object (in particular a non-empty one) is present. -/
theorem duplicate_branch_partiality (e : JSError) (env : String)
    (h1 : ¬ isMongooseValidation e) (h2 : ¬ isCastShape e)
    (h3 : isDuplicateKeyShape e) :
    (errorHandler e env = none ↔ e.keyValue = none) ∧
    (∀ kvs, e.keyValue = some kvs →
      errorHandler e env = some (duplicateResponse kvs)) := by
  have hd := errorHandler_duplicate_branch e env h1 h2 h3
  constructor
  · rw [hd]
    cases e.keyValue <;> simp
  · intro kvs hk
    rw [hd, hk]
    rfl

/-- A code-11000 failure that carries no keyValue object. -/
def keylessDuplicateFailure : JSError :=
  { name := "MongoServerError", message := "E11000 duplicate key error",
    stack := "at insert", errors := none, code := some (.cnum 11000),
    keyValue := none, isOperational := false, statusCode := 500, fields := none }

/-- Witness for C10: the keyValue-less duplicate failure makes the handler
itself raise. -/
theorem duplicate_branch_partiality_witness :
    errorHandler keylessDuplicateFailure "production" = none :=
  (duplicate_branch_partiality keylessDuplicateFailure "production"
    (by decide) (by decide) rfl).1.mpr rfl

/-- An unclassified exception thrown synchronously by a route handler. -/
def syncThrowFailure : JSError :=
  { name := "TypeError", message := "undefined is not a function",
    stack := "at route", errors := none, code := none, keyValue := none,
    isOperational := false, statusCode := 500, fields := none }

/-- Counterexample to C5 as stated: a handler that throws synchronously
before returning is not caught by the wrapper — the throw happens while
evaluating the handler call, before Promise.resolve runs, so nothing is
forwarded to the error path and the exception escapes the wrapper. -/
theorem async_sync_throw_counterexample :
    (asyncHandler (.syncThrow syncThrowFailure)).forwardedToNext = [] ∧
    (asyncHandler (.syncThrow syncThrowFailure)).escapedException = some syncThrowFailure :=
  ⟨rfl, rfl⟩

/-- Claim C5 (amended): a failure of the handler's returned deferred result
is forwarded to the error path exactly once and nothing escapes; a
successful result forwards nothing; but a synchronous throw before
returning escapes the wrapper uncaught and is forwarded zero times. -/
theorem async_boundary_forwarding (e : JSError) :
    asyncHandler (.returns (.rejected e)) =
      { forwardedToNext := [e], escapedException := none } ∧
    asyncHandler (.returns .resolved) =
      { forwardedToNext := [], escapedException := none } ∧
    asyncHandler (.syncThrow e) =
      { forwardedToNext := [], escapedException := some e } :=
  ⟨rfl, rfl, rfl⟩

end SoulMail
